import Mathlib

/-!
Formal model of the cub3d scene pipeline: the `.cub` scene parser
(`parser.c`), the map validator, the derived observer state
(`player_setup.c`), the axis-separated collision model
(`player_movement.c`) and the DDA raycaster (`raycaster.c`).

C strings are modelled as `List Char`, C `double` arithmetic as exact
rational (`ℚ`) arithmetic (and, for the trigonometric rotation operator,
real (`ℝ`) arithmetic), C `int` as `Int`/`Nat`, and fallible C functions
returning 0/NULL as `Option`-valued Lean functions.
-/

/-- Truncation of a rational toward zero, the semantics of a C cast
from `double` to `int` (for in-range values). -/
def trunc (q : ℚ) : Int :=
  if 0 ≤ q then ⌊q⌋ else -⌊-q⌋

/-- The parsed scene configuration, mirroring `t_config` in `cub3d.h`.
`char *` texture paths are `List Char` (with the separate `_set` flags,
as in the source, recording whether they were parsed), the C `int` flags
are `Bool`, and the map is the list of its rows. -/
structure Config where
  north_texture_path : List Char
  south_texture_path : List Char
  west_texture_path : List Char
  east_texture_path : List Char
  floor_color_r : Int
  floor_color_g : Int
  floor_color_b : Int
  ceiling_color_r : Int
  ceiling_color_g : Int
  ceiling_color_b : Int
  map_data : List (List Char)
  map_height : Nat
  map_width : Nat
  player_start_x : ℚ
  player_start_y : ℚ
  player_orientation : Char
  player_found : Bool
  north_texture_set : Bool
  south_texture_set : Bool
  west_texture_set : Bool
  east_texture_set : Bool
  floor_color_set : Bool
  ceiling_color_set : Bool
deriving DecidableEq, Repr

/-- Reading the map cell `map_data[y][x]`; out-of-range reads (which the
C code never performs on the paths modelled here) default to a space. -/
def cellAt (c : Config) (y x : Nat) : Char :=
  (c.map_data.getD y []).getD x ' '

/-- Reading a map cell at `Int` coordinates (used by the movement and
raycasting code, which guards the bounds before indexing). -/
def cellAtI (c : Config) (y x : Int) : Char :=
  cellAt c y.toNat x.toNat

/-- init_config from parser.c: the defaults assigned to every field. -/
def init_config : Config where
  north_texture_path := []
  south_texture_path := []
  west_texture_path := []
  east_texture_path := []
  floor_color_r := -1
  floor_color_g := -1
  floor_color_b := -1
  ceiling_color_r := -1
  ceiling_color_g := -1
  ceiling_color_b := -1
  map_data := []
  map_height := 0
  map_width := 0
  player_start_x := -1
  player_start_y := -1
  player_orientation := Char.ofNat 0
  player_found := false
  north_texture_set := false
  south_texture_set := false
  west_texture_set := false
  east_texture_set := false
  floor_color_set := false
  ceiling_color_set := false

/-- Modelled from the spec: libft's `ft_strtrim` (declared in
`libft.h`, its source file is absent from `src/`) removes every leading
and every trailing character of `s` that occurs in `set`. -/
def ft_strtrim (s : List Char) (set : List Char) : List Char :=
  ((s.dropWhile (fun c => set.contains c)).reverse.dropWhile
      (fun c => set.contains c)).reverse

/-- Decimal value of a digit sequence prefix, accumulator style. -/
def digits_val : List Char → Nat → Nat
  | [], acc => acc
  | c :: rest, acc =>
      if c.isDigit then digits_val rest (acc * 10 + (c.toNat - '0'.toNat))
      else acc

/-- Modelled from the spec: libft's `ft_atoi` (declared in `libft.h`,
its source file is absent from `src/`): skip leading whitespace, read an
optional single sign, then the value of the longest digit prefix. -/
def ft_atoi (s : List Char) : Int :=
  let s1 := s.dropWhile
    (fun c => [' ', '\t', '\n', '\x0b', '\x0c', '\r'].contains c)
  match s1 with
  | '-' :: rest => -(digits_val rest 0 : Int)
  | '+' :: rest => (digits_val rest 0 : Int)
  | _ => (digits_val s1 0 : Int)

/-- ft_split from libft/ft_split.c: decompose a string into its maximal
runs of non-separator characters (count_words counts those runs,
extract_word skips separators and copies the next run). Empty fields
between consecutive separators therefore never appear in the result. -/
def ft_split (s : List Char) (c : Char) : List (List Char) :=
  match s with
  | [] => []
  | x :: xs =>
    if x = c then ft_split xs c
    else (x :: xs.takeWhile (fun ch => ch != c)) ::
         ft_split (xs.dropWhile (fun ch => ch != c)) c
termination_by s.length
decreasing_by
  · simp
  · have := (List.dropWhile_sublist (l := xs) (fun ch => ch != c)).length_le
    simp only [List.length_cons]
    omega

/-- parse_texture from parser.c: fail on a duplicate identifier, trim
the remainder, fail if empty, otherwise return the stored path. -/
def parse_texture (line_content : List Char) (flag_set : Bool) :
    Option (List Char) :=
  if flag_set then none
  else
    let trimmed_path := ft_strtrim line_content [' ', '\t', '\n']
    if trimmed_path.length = 0 then none
    else some trimmed_path

/-- The per-character numeric test of parse_color: every character must
be a digit, except that the first may be a '+'. -/
def numeric_component (t : List Char) : Bool :=
  match t with
  | [] => true
  | c0 :: rest => (c0.isDigit || c0 == '+') && rest.all (fun c => c.isDigit)

/-- parse_color from parser.c: fail on a duplicate identifier, trim,
fail if empty, split on commas, require exactly three components, check
each component numeric, convert with ft_atoi, and require each value in
[0,255]. -/
def parse_color (line_content : List Char) (flag_set : Bool) :
    Option (Int × Int × Int) :=
  if flag_set then none
  else
    let trimmed_content := ft_strtrim line_content [' ', '\t', '\n']
    if trimmed_content.length = 0 then none
    else
      match ft_split trimmed_content ',' with
      | [t0, t1, t2] =>
        if numeric_component t0 && numeric_component t1 &&
            numeric_component t2 then
          let temp_r := ft_atoi t0
          let temp_g := ft_atoi t1
          let temp_b := ft_atoi t2
          if temp_r < 0 || temp_r > 255 || temp_g < 0 || temp_g > 255 ||
              temp_b < 0 || temp_b > 255 then none
          else some (temp_r, temp_g, temp_b)
        else none
      | _ => none

/-- all_elements_parsed from parser.c. -/
def all_elements_parsed (config : Config) : Bool :=
  config.north_texture_set && config.south_texture_set &&
  config.west_texture_set && config.east_texture_set &&
  config.floor_color_set && config.ceiling_color_set

/-- process_config_line from parser.c: dispatch on the two/three
character prefix of the trimmed line. -/
def process_config_line (trimmed_line : List Char) (config : Config) :
    Option Config :=
  if trimmed_line.take 3 = ['N', 'O', ' '] then
    (parse_texture (trimmed_line.drop 3) config.north_texture_set).map
      (fun p => { config with north_texture_path := p,
                              north_texture_set := true })
  else if trimmed_line.take 3 = ['S', 'O', ' '] then
    (parse_texture (trimmed_line.drop 3) config.south_texture_set).map
      (fun p => { config with south_texture_path := p,
                              south_texture_set := true })
  else if trimmed_line.take 3 = ['W', 'E', ' '] then
    (parse_texture (trimmed_line.drop 3) config.west_texture_set).map
      (fun p => { config with west_texture_path := p,
                              west_texture_set := true })
  else if trimmed_line.take 3 = ['E', 'A', ' '] then
    (parse_texture (trimmed_line.drop 3) config.east_texture_set).map
      (fun p => { config with east_texture_path := p,
                              east_texture_set := true })
  else if trimmed_line.take 2 = ['F', ' '] then
    (parse_color (trimmed_line.drop 2) config.floor_color_set).map
      (fun v => { config with floor_color_r := v.1, floor_color_g := v.2.1,
                              floor_color_b := v.2.2,
                              floor_color_set := true })
  else if trimmed_line.take 2 = ['C', ' '] then
    (parse_color (trimmed_line.drop 2) config.ceiling_color_set).map
      (fun v => { config with ceiling_color_r := v.1,
                              ceiling_color_g := v.2.1,
                              ceiling_color_b := v.2.2,
                              ceiling_color_set := true })
  else none

/-- is_valid_map_char from parser.c. -/
def is_valid_map_char (c : Char) : Bool :=
  c == '0' || c == '1' || c == ' ' ||
  c == 'N' || c == 'S' || c == 'E' || c == 'W'

/-- convert_map_lines_to_array from parser.c: record height and maximal
width, and right-pad every shorter row with spaces so the stored map is
rectangular. -/
def convert_map_lines_to_array (lines : List (List Char))
    (config : Config) : Config :=
  let max_width := lines.foldl (fun m l => max m l.length) 0
  { config with
    map_height := lines.length
    map_width := max_width
    map_data := lines.map
      (fun l => l ++ List.replicate (max_width - l.length) ' ') }

/-- store_player_info from parser.c: reject a second marker, record the
marker cell's center and orientation, and overwrite the marker cell of
the map with '0'. -/
def store_player_info (config : Config) (r c : Nat) (orientation : Char) :
    Option Config :=
  if config.player_found then none
  else some { config with
    player_start_x := (c : ℚ) + 0.5
    player_start_y := (r : ℚ) + 0.5
    player_orientation := orientation
    player_found := true
    map_data :=
      config.map_data.set r ((config.map_data.getD r []).set c '0') }

/-- The body of the double loop of is_map_closed for one cell: a '0'
cell fails when an orthogonal neighbor is missing (outer boundary) or is
a space. -/
def closed_cell (config : Config) (y x : Nat) : Bool :=
  if cellAt config y x = '0' then
    if y = 0 ∨ cellAt config (y - 1) x = ' ' then false
    else if y = config.map_height - 1 ∨ cellAt config (y + 1) x = ' ' then
      false
    else if x = 0 ∨ cellAt config y (x - 1) = ' ' then false
    else if x = config.map_width - 1 ∨ cellAt config y (x + 1) = ' ' then
      false
    else true
  else true

/-- is_map_closed from parser.c: the local-adjacency enclosure check
over every cell of the grid. -/
def is_map_closed (config : Config) : Bool :=
  (List.range config.map_height).all
    (fun y => (List.range config.map_width).all
      (fun x => closed_cell config y x))

/-- One cell of the scanning loop of validate_map: reject invalid
characters, and route marker characters through store_player_info. -/
def scan_cell (config : Config) (y x : Nat) : Option Config :=
  let ch := cellAt config y x
  if is_valid_map_char ch = false then none
  else if ch = 'N' ∨ ch = 'S' ∨ ch = 'E' ∨ ch = 'W' then
    store_player_info config y x ch
  else some config

/-- validate_map from parser.c: reject an empty map, scan every cell
(character validity and the single player marker, converting it to
'0'), require a marker to have been found, then run the enclosure
check. Returns the updated configuration on success. -/
def validate_map (config : Config) : Option Config :=
  if config.map_height = 0 ∨ config.map_width = 0 then none
  else
    match (List.range config.map_height).foldlM
        (fun c y => (List.range config.map_width).foldlM
          (fun c2 x => scan_cell c2 y x) c)
        { config with player_found := false } with
    | none => none
    | some c1 =>
      if c1.player_found = false then none
      else if is_map_closed c1 = false then none
      else some c1

/-- The whitespace set trimmed from every input line by the main loop of
parse_cub_file. -/
def parse_ws : List Char := [' ', '\t', '\n', '\x0b', '\x0c', '\r']

/-- The loop state of parse_cub_file: the configuration being filled,
the collected map lines, and the config-vs-map phase flag. -/
structure ParseState where
  cfg : Config
  map_lines : List (List Char)
  parsing_map_phase : Bool
deriving DecidableEq, Repr

/-- The initial loop state of parse_cub_file. -/
def initial_parse_state : ParseState :=
  { cfg := init_config, map_lines := [], parsing_map_phase := false }

/-- The body of the line loop of parse_cub_file: trim the line; keep
empty lines only once in map phase; on a line starting with '1', '0' or
space while still in config phase, require all six header elements and
switch to map phase; in map phase validate the characters and collect
the line; otherwise dispatch to process_config_line. -/
def process_line (st : ParseState) (line : List Char) : Option ParseState :=
  let trimmed_line := ft_strtrim line parse_ws
  if trimmed_line.length = 0 then
    if st.parsing_map_phase then
      some { st with map_lines := st.map_lines ++ [[]] }
    else some st
  else
    match (if st.parsing_map_phase = false ∧
              (trimmed_line.head? = some '1' ∨ trimmed_line.head? = some '0' ∨
               trimmed_line.head? = some ' ') then
             if all_elements_parsed st.cfg = false then none
             else some { st with parsing_map_phase := true }
           else some st) with
    | none => none
    | some st1 =>
      if st1.parsing_map_phase then
        if trimmed_line.all is_valid_map_char then
          some { st1 with map_lines := st1.map_lines ++ [trimmed_line] }
        else none
      else
        match process_config_line trimmed_line st1.cfg with
        | none => none
        | some cfg2 => some { st1 with cfg := cfg2 }

/-- The line loop of parse_cub_file over a full list of input lines. -/
def parse_lines (st : ParseState) (lines : List (List Char)) :
    Option ParseState :=
  lines.foldlM process_line st

/-- parse_cub_file from parser.c, over the file's list of lines: run
the line loop, require all six header elements and a nonempty collected
map, convert the map lines to the rectangular array, and validate the
map. Returns the final configuration, or none on any failure. -/
def parse_cub_file (lines : List (List Char)) : Option Config :=
  match parse_lines initial_parse_state lines with
  | none => none
  | some st =>
    if all_elements_parsed st.cfg = false then none
    else if st.map_lines = [] then none
    else validate_map (convert_map_lines_to_array st.map_lines st.cfg)

/-- MOVE_SPEED from cub3d.h. -/
def MOVE_SPEED : ℚ := 0.1

/-- The game state fields used by the modelled code, mirroring
`t_game_data` in `cub3d.h` (the display and texture handles, which only
the external collaborators touch, are omitted). The numeric type is a
parameter so that the movement code can be run over `ℚ` while the
trigonometric rotation operator is stated over `ℝ`. -/
structure GameData (α : Type) where
  config : Config
  player_x : α
  player_y : α
  dir_x : α
  dir_y : α
  plane_x : α
  plane_y : α
deriving Repr

deriving instance DecidableEq for GameData

/-- init_player_state from player_setup.c: copy the marker cell's
center from the parsed configuration, zero both vectors, then set the
direction and camera plane from the orientation character. -/
def init_player_state (game : GameData ℚ) : GameData ℚ :=
  let game := { game with
    player_x := game.config.player_start_x
    player_y := game.config.player_start_y
    dir_x := 0, dir_y := 0, plane_x := 0, plane_y := 0 }
  if game.config.player_orientation = 'N' then
    { game with dir_y := -1, plane_x := 0.66 }
  else if game.config.player_orientation = 'S' then
    { game with dir_y := 1, plane_x := -0.66 }
  else if game.config.player_orientation = 'E' then
    { game with dir_x := 1, plane_y := 0.66 }
  else if game.config.player_orientation = 'W' then
    { game with dir_x := -1, plane_y := -0.66 }
  else game

/-- A game state built from a parsed configuration, before
init_player_state runs (main.c zero-initializes the player fields). -/
def game_of_config (config : Config) : GameData ℚ :=
  { config := config, player_x := 0, player_y := 0,
    dir_x := 0, dir_y := 0, plane_x := 0, plane_y := 0 }

/-- is_wall from player_movement.c: truncate the world coordinates to
grid coordinates, treat out-of-bounds as a wall, otherwise test the map
cell for '1'. -/
def is_wall (game : GameData ℚ) (check_x check_y : ℚ) : Bool :=
  let map_x := trunc check_x
  let map_y := trunc check_y
  if map_x < 0 ∨ map_x ≥ (game.config.map_width : Int) ∨
     map_y < 0 ∨ map_y ≥ (game.config.map_height : Int) then true
  else cellAtI game.config map_y map_x == '1'

/-- move_forward_backward from player_movement.c: axis-separated
sliding collision, the X component first (against the unchanged Y),
then the Y component (against the already-updated X). -/
def move_forward_backward (game : GameData ℚ) (move_dir : ℚ) :
    GameData ℚ :=
  let new_x := game.player_x + game.dir_x * MOVE_SPEED * move_dir
  let new_y := game.player_y + game.dir_y * MOVE_SPEED * move_dir
  let game1 := if is_wall game new_x game.player_y = false then
      { game with player_x := new_x } else game
  if is_wall game1 game1.player_x new_y = false then
    { game1 with player_y := new_y } else game1

/-- strafe_left_right from player_movement.c: same axis-separated
collision, displacing along the camera plane vector. -/
def strafe_left_right (game : GameData ℚ) (strafe_dir : ℚ) :
    GameData ℚ :=
  let new_x := game.player_x + game.plane_x * MOVE_SPEED * strafe_dir
  let new_y := game.player_y + game.plane_y * MOVE_SPEED * strafe_dir
  let game1 := if is_wall game new_x game.player_y = false then
      { game with player_x := new_x } else game
  if is_wall game1 game1.player_x new_y = false then
    { game1 with player_y := new_y } else game1

/-- ROT_SPEED from cub3d.h, as an exact real. -/
noncomputable def ROT_SPEED : ℝ := 0.05

/-- rotate_player from player_movement.c: apply the 2x2 rotation matrix
for angle ROT_SPEED * rot_angle_multiplier to the direction vector and
to the camera plane vector. -/
noncomputable def rotate_player (game : GameData ℝ)
    (rot_angle_multiplier : ℝ) : GameData ℝ :=
  let angle := ROT_SPEED * rot_angle_multiplier
  { game with
    dir_x := game.dir_x * Real.cos angle - game.dir_y * Real.sin angle
    dir_y := game.dir_x * Real.sin angle + game.dir_y * Real.cos angle
    plane_x := game.plane_x * Real.cos angle - game.plane_y * Real.sin angle
    plane_y :=
      game.plane_x * Real.sin angle + game.plane_y * Real.cos angle }

/-- The standard 2x2 rotation matrix of angle `a` applied to a plane
vector, as stated by the spec's rotation-operator contract (and by the
comment block above rotate_player). -/
noncomputable def rot2 (a : ℝ) (v : ℝ × ℝ) : ℝ × ℝ :=
  (v.1 * Real.cos a - v.2 * Real.sin a,
   v.1 * Real.sin a + v.2 * Real.cos a)

/-- The per-ray state, mirroring `t_ray_params` in raycaster.c. -/
structure Ray where
  camera_x : ℚ
  ray_dir_x : ℚ
  ray_dir_y : ℚ
  map_x : Int
  map_y : Int
  side_dist_x : ℚ
  side_dist_y : ℚ
  delta_dist_x : ℚ
  delta_dist_y : ℚ
  perp_wall_dist : ℚ
  step_x : Int
  step_y : Int
  hit : Bool
  side : Nat
deriving DecidableEq, Repr

/-- The value 1e30 used by the raycaster as an effectively infinite
distance. -/
def HUGE_DIST : ℚ := 10 ^ 30

/-- One iteration of the while loop of perform_dda in raycaster.c:
advance along the axis with the smaller accumulated side distance,
then flag a hit if the new cell is outside the grid (recording the
1e30 distance) or holds a wall. -/
def dda_body (config : Config) (ray : Ray) : Ray :=
  let ray1 :=
    if ray.side_dist_x < ray.side_dist_y then
      { ray with side_dist_x := ray.side_dist_x + ray.delta_dist_x,
                 map_x := ray.map_x + ray.step_x, side := 0 }
    else
      { ray with side_dist_y := ray.side_dist_y + ray.delta_dist_y,
                 map_y := ray.map_y + ray.step_y, side := 1 }
  if ray1.map_x < 0 ∨ ray1.map_x ≥ (config.map_width : Int) ∨
     ray1.map_y < 0 ∨ ray1.map_y ≥ (config.map_height : Int) then
    { ray1 with hit := true, perp_wall_dist := HUGE_DIST }
  else if cellAtI config ray1.map_y ray1.map_x = '1' then
    { ray1 with hit := true }
  else ray1

/-- The while loop of perform_dda, with an explicit bound on the number
of iterations still allowed: `some` is returned exactly when the loop
exits within `fuel` executions of its body. -/
def perform_dda (config : Config) : Nat → Ray → Option Ray
  | 0, ray => if ray.hit then some ray else none
  | fuel + 1, ray =>
      if ray.hit then some ray
      else perform_dda config fuel (dda_body config ray)

/-- calculate_wall_x from raycaster.c: the fractional part of the exact
hit coordinate along the wall. -/
def calculate_wall_x (game : GameData ℚ) (ray : Ray) : ℚ :=
  let wall_x :=
    if ray.side = 0 then
      game.player_y + ray.perp_wall_dist * ray.ray_dir_y
    else
      game.player_x + ray.perp_wall_dist * ray.ray_dir_x
  wall_x - ⌊wall_x⌋

/-- calculate_texture_x from raycaster.c: scale the fractional hit
offset to a texture column, then mirror the column for a hit on a
west-facing (side 0, positive ray X) or south-facing (side 1, negative
ray Y) surface. -/
def calculate_texture_x (ray : Ray) (texture_width : Int)
    (wall_x : ℚ) : Int :=
  let tex_x := trunc (wall_x * (texture_width : ℚ))
  let tex_x := if ray.side = 0 ∧ ray.ray_dir_x > 0 then
      texture_width - tex_x - 1 else tex_x
  let tex_x := if ray.side = 1 ∧ ray.ray_dir_y < 0 then
      texture_width - tex_x - 1 else tex_x
  tex_x

/-- The vertical texture sample of draw_textured_stripe in raycaster.c:
`tex_y = (int)tex_pos & (tex->height - 1)`, followed by the clamp of
negative values to 0. -/
def sample_tex_y (tex_pos : ℚ) (height : Int) : Int :=
  let tex_y := Int.land (trunc tex_pos) (height - 1)
  if tex_y < 0 then 0 else tex_y

/-- The grid rows of the spec's Scenario A. -/
def scenario_a_rows : List (List Char) :=
  ["1111".toList, "1N01".toList, "1111".toList]

/-- The full Scenario A input file: all six header lines followed by
the grid rows. -/
def scenario_a_lines : List (List Char) :=
  ["NO ./textures/north.xpm".toList,
   "SO ./textures/south.xpm".toList,
   "WE ./textures/west.xpm".toList,
   "EA ./textures/east.xpm".toList,
   "F 220,100,0".toList,
   "C 225,30,0".toList] ++ scenario_a_rows

/-- The Scenario A configuration as assembled just before validate_map
runs. -/
def example_map_cfg : Config :=
  convert_map_lines_to_array scenario_a_rows init_config

/-- The Scenario A configuration returned by validate_map. -/
def example_validated : Config :=
  (validate_map example_map_cfg).getD example_map_cfg

/-- A concrete game state on the validated Scenario A map, standing at
the marker cell's center facing north. -/
def example_game : GameData ℚ :=
  { config := example_validated, player_x := 3 / 2, player_y := 3 / 2,
    dir_x := 0, dir_y := -1, plane_x := 0.66, plane_y := 0 }

/-- A concrete ray on the validated Scenario A map, starting in cell
(1, 1) and stepping toward positive X and Y. -/
def example_ray : Ray :=
  { camera_x := 0, ray_dir_x := 1, ray_dir_y := 1, map_x := 1, map_y := 1,
    side_dist_x := 1 / 2, side_dist_y := 1 / 2, delta_dist_x := 1,
    delta_dist_y := 1, perp_wall_dist := 0, step_x := 1, step_y := 1,
    hit := false, side := 0 }

/-- Helper: is_wall reads only the configuration of the game state, so
two states with equal configurations agree on it. -/
theorem is_wall_config_only (g g2 : GameData ℚ) (hcfg : g.config = g2.config)
    (x y : ℚ) : is_wall g x y = is_wall g2 x y := by
  unfold is_wall
  rw [hcfg]

/-- Helper: the shared axis-separated collision step of
move_forward_backward and strafe_left_right keeps the player in a
non-wall, in-bounds cell. -/
theorem slide_preserves_free_cell (g : GameData ℚ) (nx ny : ℚ)
    (h : is_wall g g.player_x g.player_y = false) :
    (fun g2 => is_wall g2 g2.player_x g2.player_y = false)
      (if is_wall
            (if is_wall g nx g.player_y = false then
              { g with player_x := nx } else g)
            (if is_wall g nx g.player_y = false then
              { g with player_x := nx } else g).player_x ny = false then
        { (if is_wall g nx g.player_y = false then
            { g with player_x := nx } else g) with player_y := ny }
       else
        (if is_wall g nx g.player_y = false then
          { g with player_x := nx } else g)) := by
  set g1 := if is_wall g nx g.player_y = false then
      { g with player_x := nx } else g with hg1
  have hcfg1 : g1.config = g.config := by
    rw [hg1]; split <;> rfl
  have hy1 : g1.player_y = g.player_y := by
    rw [hg1]; split <;> rfl
  have hx1 : is_wall g g1.player_x g.player_y = false := by
    rw [hg1]; split
    case isTrue h1 => exact h1
    case isFalse h1 => exact h
  dsimp only
  split
  case isTrue h2 =>
    show is_wall { g1 with player_y := ny } g1.player_x ny = false
    rw [is_wall_config_only { g1 with player_y := ny } g1 rfl]
    exact h2
  case isFalse h2 =>
    rw [hy1, is_wall_config_only g1 g hcfg1]
    exact hx1

/-- C2: from a player position in a non-wall, in-bounds grid cell,
move_forward_backward and strafe_left_right (for any direction
multiplier) leave the player in a non-wall, in-bounds grid cell, each
axis component of the displacement being accepted only after its own
collision check. -/
theorem movement_preserves_free_cell (g : GameData ℚ) (d : ℚ)
    (h : is_wall g g.player_x g.player_y = false) :
    is_wall (move_forward_backward g d) (move_forward_backward g d).player_x
        (move_forward_backward g d).player_y = false ∧
    is_wall (strafe_left_right g d) (strafe_left_right g d).player_x
        (strafe_left_right g d).player_y = false :=
  ⟨slide_preserves_free_cell g (g.player_x + g.dir_x * MOVE_SPEED * d)
      (g.player_y + g.dir_y * MOVE_SPEED * d) h,
   slide_preserves_free_cell g (g.player_x + g.plane_x * MOVE_SPEED * d)
      (g.player_y + g.plane_y * MOVE_SPEED * d) h⟩

/-- C2 witness: the theorem applied to the concrete Scenario A state
standing in cell (1, 1). -/
theorem movement_preserves_free_cell_witness :
    is_wall (move_forward_backward example_game 1)
        (move_forward_backward example_game 1).player_x
        (move_forward_backward example_game 1).player_y = false ∧
    is_wall (strafe_left_right example_game 1)
        (strafe_left_right example_game 1).player_x
        (strafe_left_right example_game 1).player_y = false :=
  movement_preserves_free_cell example_game 1 (by with_unfolding_all decide)

/-- C10: move_forward_backward and strafe_left_right modify only the
player position fields, leaving the direction vector, the camera plane
and the entire parsed configuration (including the grid) unchanged;
rotate_player modifies only the direction and plane fields, leaving the
player position and the configuration unchanged. -/
theorem movement_frame_conditions (g : GameData ℚ) (d : ℚ)
    (gr : GameData ℝ) (m : ℝ) :
    ((move_forward_backward g d).config = g.config ∧
     (move_forward_backward g d).dir_x = g.dir_x ∧
     (move_forward_backward g d).dir_y = g.dir_y ∧
     (move_forward_backward g d).plane_x = g.plane_x ∧
     (move_forward_backward g d).plane_y = g.plane_y) ∧
    ((strafe_left_right g d).config = g.config ∧
     (strafe_left_right g d).dir_x = g.dir_x ∧
     (strafe_left_right g d).dir_y = g.dir_y ∧
     (strafe_left_right g d).plane_x = g.plane_x ∧
     (strafe_left_right g d).plane_y = g.plane_y) ∧
    ((rotate_player gr m).config = gr.config ∧
     (rotate_player gr m).player_x = gr.player_x ∧
     (rotate_player gr m).player_y = gr.player_y) := by
  refine ⟨?_, ?_, ⟨rfl, rfl, rfl⟩⟩
  · unfold move_forward_backward
    dsimp only
    split <;> split <;> exact ⟨rfl, rfl, rfl, rfl, rfl⟩
  · unfold strafe_left_right
    dsimp only
    split <;> split <;> exact ⟨rfl, rfl, rfl, rfl, rfl⟩

/-- C9: rotate_player rotates the direction vector and the camera
plane vector by the same 2x2 rotation matrix of angle
ROT_SPEED * multiplier, preserving the dot product of direction and
plane and the Euclidean length of the plane vector, over exact real
arithmetic. -/
theorem rotate_player_rotation_invariants (g : GameData ℝ) (m : ℝ) :
    ((rotate_player g m).dir_x, (rotate_player g m).dir_y) =
        rot2 (ROT_SPEED * m) (g.dir_x, g.dir_y) ∧
    ((rotate_player g m).plane_x, (rotate_player g m).plane_y) =
        rot2 (ROT_SPEED * m) (g.plane_x, g.plane_y) ∧
    (rotate_player g m).dir_x * (rotate_player g m).plane_x +
        (rotate_player g m).dir_y * (rotate_player g m).plane_y =
      g.dir_x * g.plane_x + g.dir_y * g.plane_y ∧
    Real.sqrt ((rotate_player g m).plane_x ^ 2 +
        (rotate_player g m).plane_y ^ 2) =
      Real.sqrt (g.plane_x ^ 2 + g.plane_y ^ 2) := by
  have hsc := Real.sin_sq_add_cos_sq (ROT_SPEED * m)
  refine ⟨rfl, rfl, ?_, ?_⟩
  · unfold rotate_player
    dsimp only
    linear_combination (g.dir_x * g.plane_x + g.dir_y * g.plane_y) * hsc
  · have h2 : (rotate_player g m).plane_x ^ 2 +
        (rotate_player g m).plane_y ^ 2 =
        g.plane_x ^ 2 + g.plane_y ^ 2 := by
      unfold rotate_player
      dsimp only
      linear_combination (g.plane_x ^ 2 + g.plane_y ^ 2) * hsc
    rw [h2]

/-- C5 counterexample: for texture height 3 (positive but not a power
of two) and integer texture position 3, the bitwise-AND sample of
draw_textured_stripe yields 3 AND 2 = 2, not 3 mod 3 = 0. -/
theorem sample_tex_y_not_mod_at_height_three :
    sample_tex_y 3 3 ≠ trunc 3 % 3 := by
  with_unfolding_all decide

/-- C5 (amended): for every texture height that is a power of two and
every nonnegative integer texture position, the vertical sample index
equals the integer texture position reduced modulo the height. -/
theorem sample_tex_y_mod_of_pow_two (tex_pos : ℚ) (k : Nat)
    (h : 0 ≤ trunc tex_pos) :
    sample_tex_y tex_pos ((2 : Int) ^ k) = trunc tex_pos % 2 ^ k := by
  obtain ⟨m, hm⟩ := Int.eq_ofNat_of_zero_le h
  have hone : (1 : Nat) ≤ 2 ^ k := Nat.one_le_two_pow
  have hmask : ((2 : Int) ^ k - 1) = Int.ofNat (2 ^ k - 1) := by
    simp only [Int.ofNat_eq_coe]
    push_cast [hone]
    ring
  have hland : ((m : Int)).land (Int.ofNat (2 ^ k - 1)) =
      Int.ofNat (Nat.land m (2 ^ k - 1)) := rfl
  unfold sample_tex_y
  rw [hm, hmask, hland]
  have hmod : Nat.land m (2 ^ k - 1) = m % 2 ^ k :=
    Nat.and_pow_two_sub_one_eq_mod m k
  rw [hmod]
  have hnonneg : ¬ (Int.ofNat (m % 2 ^ k) < 0) := by
    simp only [Int.ofNat_eq_coe]
    omega
  rw [if_neg hnonneg]
  simp only [Int.ofNat_eq_coe]
  push_cast
  rfl

/-- C5 witness for the amended theorem: position 7/2 truncates to 3,
and sampling with height 4 gives 3 mod 4. -/
theorem sample_tex_y_mod_of_pow_two_witness :
    sample_tex_y (7 / 2) ((2 : Int) ^ 2) = trunc (7 / 2) % 2 ^ 2 :=
  sample_tex_y_mod_of_pow_two (7 / 2) 2 (by with_unfolding_all decide)

/-- Helper: calculate_wall_x always lands in [0, 1): it is the
fractional part of the exact hit coordinate. -/
theorem calculate_wall_x_mem_Ico (g : GameData ℚ) (r : Ray) :
    0 ≤ calculate_wall_x g r ∧ calculate_wall_x g r < 1 := by
  unfold calculate_wall_x
  dsimp only
  rw [Int.self_sub_floor]
  exact ⟨Int.fract_nonneg _, Int.fract_lt_one _⟩

/-- C4: for every ray state and every positive texture width, the
texture-column index computed from the fractional wall hit offset,
mirrored for west-facing and south-facing surfaces, lies in
[0, texture_width). -/
theorem calculate_texture_x_in_range (g : GameData ℚ) (r : Ray)
    (texture_width : Int) (h : 0 < texture_width) :
    0 ≤ calculate_texture_x r texture_width (calculate_wall_x g r) ∧
    calculate_texture_x r texture_width (calculate_wall_x g r) <
      texture_width := by
  obtain ⟨hw0, hw1⟩ := calculate_wall_x_mem_Ico g r
  set w := calculate_wall_x g r with hw
  have htw : (0 : ℚ) < (texture_width : ℚ) := by exact_mod_cast h
  have hm0 : 0 ≤ w * (texture_width : ℚ) := mul_nonneg hw0 htw.le
  have hm1 : w * (texture_width : ℚ) < (texture_width : ℚ) := by
    calc w * (texture_width : ℚ) < 1 * (texture_width : ℚ) :=
          mul_lt_mul_of_pos_right hw1 htw
    _ = (texture_width : ℚ) := one_mul _
  have ht0 : 0 ≤ trunc (w * (texture_width : ℚ)) := by
    unfold trunc
    rw [if_pos hm0]
    exact Int.floor_nonneg.mpr hm0
  have ht1 : trunc (w * (texture_width : ℚ)) < texture_width := by
    unfold trunc
    rw [if_pos hm0]
    exact Int.floor_lt.mpr hm1
  unfold calculate_texture_x
  dsimp only
  split_ifs <;> constructor <;> omega

/-- C4 witness: the theorem applied to the concrete Scenario A state
and ray with texture width 64. -/
theorem calculate_texture_x_in_range_witness :
    0 ≤ calculate_texture_x example_ray 64
        (calculate_wall_x example_game example_ray) ∧
    calculate_texture_x example_ray 64
        (calculate_wall_x example_game example_ray) < 64 :=
  calculate_texture_x_in_range example_game example_ray 64 (by decide)

/-- C8: parsing and validating the Scenario A scene (grid rows 1111,
1N01, 1111 with all six header lines valid) succeeds, and the derived
initial observer state is position (1.5, 1.5), direction (0, -1) and
camera plane (0.66, 0). -/
theorem scenario_a_initial_state :
    (parse_cub_file scenario_a_lines).map (fun cfg =>
      let g := init_player_state (game_of_config cfg)
      (g.player_x, g.player_y, g.dir_x, g.dir_y, g.plane_x, g.plane_y)) =
    some (3 / 2, 3 / 2, 0, -1, 33 / 50, 0) := by
  with_unfolding_all decide

/-- Rectangularity of a stored grid: the row list has exactly
map_height rows and every row exactly map_width cells (the shape
convert_map_lines_to_array establishes). -/
def rectangular (c : Config) : Prop :=
  c.map_data.length = c.map_height ∧
  ∀ row ∈ c.map_data, row.length = c.map_width

/-- Helper: a passing is_map_closed check passes on every cell of the
grid. -/
theorem is_map_closed_cell (c : Config) (h : is_map_closed c = true)
    (y x : Nat) (hy : y < c.map_height) (hx : x < c.map_width) :
    closed_cell c y x = true := by
  unfold is_map_closed at h
  rw [List.all_eq_true] at h
  have hrow := h y (List.mem_range.mpr hy)
  rw [List.all_eq_true] at hrow
  exact hrow x (List.mem_range.mpr hx)

/-- Helper: a '0' cell passing the per-cell enclosure check has all
four orthogonal neighbors inside bounds and none of them a space. -/
theorem closed_cell_spec (c : Config) (y x : Nat)
    (h : closed_cell c y x = true) (hc : cellAt c y x = '0')
    (hy : y < c.map_height) (hx : x < c.map_width) :
    (0 < y ∧ y + 1 < c.map_height ∧ 0 < x ∧ x + 1 < c.map_width) ∧
    cellAt c (y - 1) x ≠ ' ' ∧ cellAt c (y + 1) x ≠ ' ' ∧
    cellAt c y (x - 1) ≠ ' ' ∧ cellAt c y (x + 1) ≠ ' ' := by
  unfold closed_cell at h
  rw [if_pos hc] at h
  split_ifs at h with h1 h2 h3 h4
  push_neg at h1 h2 h3 h4
  obtain ⟨h1a, h1b⟩ := h1
  obtain ⟨h2a, h2b⟩ := h2
  obtain ⟨h3a, h3b⟩ := h3
  obtain ⟨h4a, h4b⟩ := h4
  exact ⟨⟨by omega, by omega, by omega, by omega⟩, h1b, h2b, h3b, h4b⟩

/-- C1: if validate_map succeeds on a rectangular grid, then in the
validated grid (markers already converted to '0') every Floor cell has
all four orthogonal neighbors inside grid bounds and none of those
neighbors is a space cell; contrapositively, a grid with a Floor cell
on the outer boundary or adjacent to a space is rejected. -/
theorem validate_map_encloses_floor (cfg cfgv : Config)
    (hrect : rectangular cfg)
    (hv : validate_map cfg = some cfgv)
    (y x : Nat) (hy : y < cfgv.map_height) (hx : x < cfgv.map_width)
    (hc : cellAt cfgv y x = '0') :
    (0 < y ∧ y + 1 < cfgv.map_height ∧ 0 < x ∧ x + 1 < cfgv.map_width) ∧
    cellAt cfgv (y - 1) x ≠ ' ' ∧ cellAt cfgv (y + 1) x ≠ ' ' ∧
    cellAt cfgv y (x - 1) ≠ ' ' ∧ cellAt cfgv y (x + 1) ≠ ' ' := by
  have hclosed : is_map_closed cfgv = true := by
    unfold validate_map at hv
    split at hv
    · exact absurd hv (by simp)
    · split at hv
      · exact absurd hv (by simp)
      · rename_i c1 heq
        split at hv
        · exact absurd hv (by simp)
        · split at hv
          · exact absurd hv (by simp)
          · rename_i hmc
            injection hv with hv1
            subst hv1
            simpa using hmc
  exact closed_cell_spec cfgv y x (is_map_closed_cell cfgv hclosed y x hy hx)
    hc hy hx

/-- C1 witness: the theorem applied to the validated Scenario A grid at
the converted marker cell (1, 1). -/
theorem validate_map_encloses_floor_witness :
    (0 < 1 ∧ 1 + 1 < example_validated.map_height ∧ 0 < 1 ∧
      1 + 1 < example_validated.map_width) ∧
    cellAt example_validated (1 - 1) 1 ≠ ' ' ∧
    cellAt example_validated (1 + 1) 1 ≠ ' ' ∧
    cellAt example_validated 1 (1 - 1) ≠ ' ' ∧
    cellAt example_validated 1 (1 + 1) ≠ ' ' :=
  validate_map_encloses_floor example_map_cfg example_validated
    (by constructor
        · with_unfolding_all decide
        · with_unfolding_all decide)
    (by with_unfolding_all decide) 1 1
    (by with_unfolding_all decide) (by with_unfolding_all decide)
    (by with_unfolding_all decide)

/-- Helper: the DDA loop exits immediately once the hit flag is set. -/
theorem perform_dda_of_hit (config : Config) (fuel : Nat) (r : Ray)
    (h : r.hit = true) : perform_dda config fuel r = some r := by
  cases fuel <;> simp [perform_dda, h]

/-- Helper: fuel bound for the DDA loop by induction. The measure is
the number of grid steps each axis can still take before leaving the
grid; every loop iteration either sets the hit flag or decreases the
measure by one. -/
theorem perform_dda_bound (config : Config) :
    ∀ (fuel : Nat) (r : Ray),
      r.hit = false →
      0 ≤ r.map_x → r.map_x < (config.map_width : Int) →
      0 ≤ r.map_y → r.map_y < (config.map_height : Int) →
      (r.step_x = 1 ∨ r.step_x = -1) →
      (r.step_y = 1 ∨ r.step_y = -1) →
      ((if r.step_x = 1 then ((config.map_width : Int) - r.map_x).toNat
        else (r.map_x + 1).toNat) +
       (if r.step_y = 1 then ((config.map_height : Int) - r.map_y).toNat
        else (r.map_y + 1).toNat)) ≤ fuel + 1 →
      ∃ r2, perform_dda config fuel r = some r2 ∧ r2.hit = true ∧
        ((0 ≤ r2.map_x ∧ r2.map_x < (config.map_width : Int) ∧
          0 ≤ r2.map_y ∧ r2.map_y < (config.map_height : Int) ∧
          cellAtI config r2.map_y r2.map_x = '1') ∨
         (¬(0 ≤ r2.map_x ∧ r2.map_x < (config.map_width : Int) ∧
            0 ≤ r2.map_y ∧ r2.map_y < (config.map_height : Int)) ∧
          r2.perp_wall_dist = HUGE_DIST ∧
          ¬(r2.perp_wall_dist < 10 ^ 29))) := by
  intro fuel
  induction fuel with
  | zero =>
    intro r hhit hx0 hx1 hy0 hy1 hsx hsy hm
    exfalso
    have hmx : (1 : Nat) ≤
        (if r.step_x = 1 then ((config.map_width : Int) - r.map_x).toNat
         else (r.map_x + 1).toNat) := by
      split <;> omega
    have hmy : (1 : Nat) ≤
        (if r.step_y = 1 then ((config.map_height : Int) - r.map_y).toNat
         else (r.map_y + 1).toNat) := by
      split <;> omega
    omega
  | succ n ih =>
    intro r hhit hx0 hx1 hy0 hy1 hsx hsy hm
    rw [perform_dda, if_neg (by simp [hhit])]
    by_cases hlt : r.side_dist_x < r.side_dist_y
    · set r1 : Ray := { r with
        side_dist_x := r.side_dist_x + r.delta_dist_x,
        map_x := r.map_x + r.step_x, side := 0 } with hr1
      have hbody : dda_body config r =
          if r1.map_x < 0 ∨ r1.map_x ≥ (config.map_width : Int) ∨
             r1.map_y < 0 ∨ r1.map_y ≥ (config.map_height : Int) then
            { r1 with hit := true, perp_wall_dist := HUGE_DIST }
          else if cellAtI config r1.map_y r1.map_x = '1' then
            { r1 with hit := true }
          else r1 := by
        unfold dda_body
        rw [if_pos hlt]
      by_cases hoob : r1.map_x < 0 ∨ r1.map_x ≥ (config.map_width : Int) ∨
          r1.map_y < 0 ∨ r1.map_y ≥ (config.map_height : Int)
      · refine ⟨{ r1 with hit := true, perp_wall_dist := HUGE_DIST },
          ?_, rfl, Or.inr ⟨?_, rfl, ?_⟩⟩
        · rw [hbody, if_pos hoob]
          exact perform_dda_of_hit config n _ rfl
        · show ¬(0 ≤ r1.map_x ∧ r1.map_x < (config.map_width : Int) ∧
               0 ≤ r1.map_y ∧ r1.map_y < (config.map_height : Int))
          omega
        · show ¬(HUGE_DIST < (10 : ℚ) ^ 29)
          unfold HUGE_DIST
          norm_num
      · by_cases hwall : cellAtI config r1.map_y r1.map_x = '1'
        · refine ⟨{ r1 with hit := true }, ?_, rfl, Or.inl ?_⟩
          · rw [hbody, if_neg hoob, if_pos hwall]
            exact perform_dda_of_hit config n _ rfl
          · push_neg at hoob
            exact ⟨hoob.1, hoob.2.1, hoob.2.2.1, hoob.2.2.2, hwall⟩
        · have hb2 : dda_body config r = r1 := by
            rw [hbody, if_neg hoob, if_neg hwall]
          rw [hb2]
          push_neg at hoob
          apply ih r1 hhit (by omega) (by omega) (by omega) (by omega)
            hsx hsy
          show ((if r.step_x = 1 then
              ((config.map_width : Int) - (r.map_x + r.step_x)).toNat
            else (r.map_x + r.step_x + 1).toNat) +
           (if r.step_y = 1 then
              ((config.map_height : Int) - r.map_y).toNat
            else (r.map_y + 1).toNat)) ≤ n + 1
          split_ifs at hm ⊢ <;> omega
    · set r1 : Ray := { r with
        side_dist_y := r.side_dist_y + r.delta_dist_y,
        map_y := r.map_y + r.step_y, side := 1 } with hr1
      have hbody : dda_body config r =
          if r1.map_x < 0 ∨ r1.map_x ≥ (config.map_width : Int) ∨
             r1.map_y < 0 ∨ r1.map_y ≥ (config.map_height : Int) then
            { r1 with hit := true, perp_wall_dist := HUGE_DIST }
          else if cellAtI config r1.map_y r1.map_x = '1' then
            { r1 with hit := true }
          else r1 := by
        unfold dda_body
        rw [if_neg hlt]
      by_cases hoob : r1.map_x < 0 ∨ r1.map_x ≥ (config.map_width : Int) ∨
          r1.map_y < 0 ∨ r1.map_y ≥ (config.map_height : Int)
      · refine ⟨{ r1 with hit := true, perp_wall_dist := HUGE_DIST },
          ?_, rfl, Or.inr ⟨?_, rfl, ?_⟩⟩
        · rw [hbody, if_pos hoob]
          exact perform_dda_of_hit config n _ rfl
        · show ¬(0 ≤ r1.map_x ∧ r1.map_x < (config.map_width : Int) ∧
               0 ≤ r1.map_y ∧ r1.map_y < (config.map_height : Int))
          omega
        · show ¬(HUGE_DIST < (10 : ℚ) ^ 29)
          unfold HUGE_DIST
          norm_num
      · by_cases hwall : cellAtI config r1.map_y r1.map_x = '1'
        · refine ⟨{ r1 with hit := true }, ?_, rfl, Or.inl ?_⟩
          · rw [hbody, if_neg hoob, if_pos hwall]
            exact perform_dda_of_hit config n _ rfl
          · push_neg at hoob
            exact ⟨hoob.1, hoob.2.1, hoob.2.2.1, hoob.2.2.2, hwall⟩
        · have hb2 : dda_body config r = r1 := by
            rw [hbody, if_neg hoob, if_neg hwall]
          rw [hb2]
          push_neg at hoob
          apply ih r1 hhit (by omega) (by omega) (by omega) (by omega)
            hsx hsy
          show ((if r.step_x = 1 then
              ((config.map_width : Int) - r.map_x).toNat
            else (r.map_x + 1).toNat) +
           (if r.step_y = 1 then
              ((config.map_height : Int) - (r.map_y + r.step_y)).toNat
            else (r.map_y + r.step_y + 1).toNat)) ≤ n + 1
          split_ifs at hm ⊢ <;> omega

/-- C3: for every ray whose starting map cell lies inside grid bounds
(with the step signs ±1 that calculate_step_and_side_dist always
assigns), the DDA loop terminates within map_width + map_height
iterations, ending either on a wall cell or outside grid bounds with
the perpendicular distance set to 1e30, in which case the
draw-condition perp_wall_dist < 1e29 of cast_all_rays is false and no
wall stripe is drawn. -/
theorem perform_dda_terminates (config : Config) (r : Ray)
    (hhit : r.hit = false)
    (hx : 0 ≤ r.map_x ∧ r.map_x < (config.map_width : Int))
    (hy : 0 ≤ r.map_y ∧ r.map_y < (config.map_height : Int))
    (hsx : r.step_x = 1 ∨ r.step_x = -1)
    (hsy : r.step_y = 1 ∨ r.step_y = -1) :
    ∃ r2, perform_dda config (config.map_width + config.map_height) r =
        some r2 ∧ r2.hit = true ∧
      ((0 ≤ r2.map_x ∧ r2.map_x < (config.map_width : Int) ∧
        0 ≤ r2.map_y ∧ r2.map_y < (config.map_height : Int) ∧
        cellAtI config r2.map_y r2.map_x = '1') ∨
       (¬(0 ≤ r2.map_x ∧ r2.map_x < (config.map_width : Int) ∧
          0 ≤ r2.map_y ∧ r2.map_y < (config.map_height : Int)) ∧
        r2.perp_wall_dist = HUGE_DIST ∧
        ¬(r2.perp_wall_dist < 10 ^ 29))) := by
  apply perform_dda_bound config (config.map_width + config.map_height) r
    hhit hx.1 hx.2 hy.1 hy.2 hsx hsy
  obtain ⟨hx0, hx1⟩ := hx
  obtain ⟨hy0, hy1⟩ := hy
  split_ifs <;> omega

/-- C3 witness: the theorem applied to the concrete ray on the
validated Scenario A map (width 4, height 3, so 7 iterations of fuel
suffice). -/
theorem perform_dda_terminates_witness :
    ∃ r2, perform_dda example_validated
        (example_validated.map_width + example_validated.map_height)
        example_ray = some r2 ∧ r2.hit = true ∧
      ((0 ≤ r2.map_x ∧ r2.map_x < (example_validated.map_width : Int) ∧
        0 ≤ r2.map_y ∧ r2.map_y < (example_validated.map_height : Int) ∧
        cellAtI example_validated r2.map_y r2.map_x = '1') ∨
       (¬(0 ≤ r2.map_x ∧ r2.map_x < (example_validated.map_width : Int) ∧
          0 ≤ r2.map_y ∧
          r2.map_y < (example_validated.map_height : Int)) ∧
        r2.perp_wall_dist = HUGE_DIST ∧
        ¬(r2.perp_wall_dist < 10 ^ 29))) :=
  perform_dda_terminates example_validated example_ray rfl
    (by with_unfolding_all decide) (by with_unfolding_all decide)
    (by with_unfolding_all decide) (by with_unfolding_all decide)

/-- Helper: ft_split never produces an empty token (every token starts
with a non-separator character). -/
theorem ft_split_ne_nil (n : Nat) :
    ∀ (s : List Char) (c : Char), s.length ≤ n →
      ∀ l ∈ ft_split s c, l ≠ [] := by
  induction n with
  | zero =>
    intro s c hlen l hl
    have hs : s = [] := List.eq_nil_of_length_eq_zero (by omega)
    subst hs
    simp [ft_split] at hl
  | succ n ih =>
    intro s c hlen l hl
    match s, hlen, hl with
    | [], hlen, hl => simp [ft_split] at hl
    | x :: xs, hlen, hl =>
      rw [ft_split] at hl
      by_cases hxc : x = c
      · rw [if_pos hxc] at hl
        exact ih xs c (by simp at hlen; omega) l hl
      · rw [if_neg hxc] at hl
        rcases List.mem_cons.mp hl with h1 | h2
        · subst h1
          simp
        · have hlen2 : (xs.dropWhile (fun ch => ch != c)).length ≤ n := by
            have := (List.dropWhile_sublist
              (l := xs) (fun ch => ch != c)).length_le
            simp at hlen
            omega
          exact ih _ c hlen2 l h2

/-- C6: parse_color accepts exactly when the color was not previously
set and the trimmed remainder splits on commas into exactly 3 non-empty
tokens, each consisting of digits with at most an optional leading '+',
each parsed value lying in [0,255]; and in particular the line
F 256,0,0 fails with its value out of range. -/
theorem parse_color_characterization :
    (∀ (line_content : List Char) (flag_set : Bool),
      (parse_color line_content flag_set).isSome = true ↔
        (flag_set = false ∧
         (ft_split (ft_strtrim line_content [' ', '\t', '\n']) ',').length
            = 3 ∧
         ∀ t ∈ ft_split (ft_strtrim line_content [' ', '\t', '\n']) ',',
            t ≠ [] ∧ numeric_component t = true ∧
            0 ≤ ft_atoi t ∧ ft_atoi t ≤ 255)) ∧
    process_config_line "F 256,0,0".toList init_config = none := by
  constructor
  · intro line_content flag_set
    unfold parse_color
    cases flag_set with
    | true => simp
    | false =>
      rw [if_neg Bool.false_ne_true]
      set tr := ft_strtrim line_content [' ', '\t', '\n'] with htr
      by_cases hzero : tr.length = 0
      · rw [if_pos hzero]
        have htrnil : tr = [] := List.eq_nil_of_length_eq_zero hzero
        simp [htrnil, ft_split]
      · rw [if_neg hzero]
        split
        · rename_i x t0 t1 t2 heq
          rw [heq]
          have hm0 : t0 ∈ ft_split tr ',' := by rw [heq]; simp
          have hm1 : t1 ∈ ft_split tr ',' := by rw [heq]; simp
          have hm2 : t2 ∈ ft_split tr ',' := by rw [heq]; simp
          have hne0 := ft_split_ne_nil tr.length tr ',' le_rfl t0 hm0
          have hne1 := ft_split_ne_nil tr.length tr ',' le_rfl t1 hm1
          have hne2 := ft_split_ne_nil tr.length tr ',' le_rfl t2 hm2
          dsimp only
          split_ifs with hnum hrange
          · refine iff_of_false (by simp) (fun hrhs => ?_)
            obtain ⟨-, -, hall⟩ := hrhs
            have h0 := hall t0 (by simp)
            have h1 := hall t1 (by simp)
            have h2 := hall t2 (by simp)
            simp only [Bool.or_eq_true, decide_eq_true_eq] at hrange
            rcases h0 with ⟨-, -, h0a, h0b⟩
            rcases h1 with ⟨-, -, h1a, h1b⟩
            rcases h2 with ⟨-, -, h2a, h2b⟩
            omega
          · simp only [Bool.and_eq_true] at hnum
            simp only [Bool.or_eq_true, decide_eq_true_eq, not_or] at hrange
            refine iff_of_true (by simp) ⟨rfl, rfl, ?_⟩
            intro t ht
            simp only [List.mem_cons, List.not_mem_nil, or_false] at ht
            rcases ht with rfl | rfl | rfl
            · exact ⟨hne0, hnum.1.1, by omega, by omega⟩
            · exact ⟨hne1, hnum.1.2, by omega, by omega⟩
            · exact ⟨hne2, hnum.2, by omega, by omega⟩
          · refine iff_of_false (by simp) (fun hrhs => ?_)
            obtain ⟨-, -, hall⟩ := hrhs
            have h0 := hall t0 (by simp)
            have h1 := hall t1 (by simp)
            have h2 := hall t2 (by simp)
            exact hnum (by simp [h0.2.1, h1.2.1, h2.2.1])
        · rename_i x hne
          refine iff_of_false (by simp) (fun hrhs => ?_)
          obtain ⟨-, hlen3, -⟩ := hrhs
          obtain ⟨a, b, c2, habc⟩ := List.length_eq_three.mp hlen3
          exact hne a b c2 habc
  · with_unfolding_all decide

/-- C7: while not yet in grid mode, a non-blank line whose first
character is '1', '0' or space switches the parser to grid mode when
all six header fields are set, and otherwise makes parse_cub_file fail
(the fatal ordering error), for any continuation of the input. -/
theorem header_before_grid_ordering (pre rest : List (List Char))
    (line : List Char) (st : ParseState)
    (hpre : parse_lines initial_parse_state pre = some st)
    (hphase : st.parsing_map_phase = false)
    (hne : (ft_strtrim line parse_ws).length ≠ 0)
    (hhead : (ft_strtrim line parse_ws).head? = some '1' ∨
             (ft_strtrim line parse_ws).head? = some '0' ∨
             (ft_strtrim line parse_ws).head? = some ' ') :
    (all_elements_parsed st.cfg = true →
      ∀ st2, process_line st line = some st2 →
        st2.parsing_map_phase = true) ∧
    (all_elements_parsed st.cfg = false →
      parse_cub_file (pre ++ line :: rest) = none) := by
  constructor
  · intro hall st2 hproc
    simp only [process_line] at hproc
    rw [if_neg hne, if_pos ⟨hphase, hhead⟩,
      if_neg (by simp [hall])] at hproc
    split at hproc
    · exact absurd hproc (by simp)
    · rename_i st1 hvalid
      injection hvalid with hst1
      subst hst1
      rw [if_pos rfl] at hproc
      split at hproc
      · injection hproc with hst2
        subst hst2
        rfl
      · exact absurd hproc (by simp)
  · intro hall
    have hstep : process_line st line = none := by
      simp only [process_line]
      rw [if_neg hne, if_pos ⟨hphase, hhead⟩, if_pos hall]
    have hfold : parse_lines initial_parse_state (pre ++ line :: rest) =
        none := by
      unfold parse_lines at hpre ⊢
      rw [List.foldlM_append]
      rw [hpre]
      simp [List.foldlM_cons, hstep]
    unfold parse_cub_file
    rw [hfold]

/-- C7 witness: after a single NO header line the headers are
incomplete, so a following grid line makes the whole parse fail. -/
theorem header_before_grid_ordering_witness :
    (all_elements_parsed ((parse_lines initial_parse_state
          ["NO ./textures/north.xpm".toList]).getD
          initial_parse_state).cfg = true →
      ∀ st2, process_line ((parse_lines initial_parse_state
            ["NO ./textures/north.xpm".toList]).getD initial_parse_state)
          "111".toList = some st2 → st2.parsing_map_phase = true) ∧
    (all_elements_parsed ((parse_lines initial_parse_state
          ["NO ./textures/north.xpm".toList]).getD
          initial_parse_state).cfg = false →
      parse_cub_file (["NO ./textures/north.xpm".toList] ++
        "111".toList :: []) = none) :=
  header_before_grid_ordering ["NO ./textures/north.xpm".toList] []
    "111".toList
    ((parse_lines initial_parse_state
        ["NO ./textures/north.xpm".toList]).getD initial_parse_state)
    (by with_unfolding_all decide) (by with_unfolding_all decide)
    (by with_unfolding_all decide) (by with_unfolding_all decide)
